import Mathlib

/-!
Verification of the hostel price-scraping pipeline (`src/Here/finalapp.py`).

The embedding below translates the pure computational core of the program
into Lean definitions:

* monetary values are rationals (`ℚ`); Python's binary floats are modelled
  exactly by the decimal arithmetic of the source formulas, and `round(x, 2)`
  is modelled by `round2` (round half to even at two decimal places, which is
  Python's rounding rule);
* calendar dates are modelled as integers (a day index), so
  `(end_date - start_date).days` becomes integer subtraction;
* the pandas dataframe produced by `parse_hotel_prices` is a list of `Entry`
  rows; `df['price'].str.extract(r'(\d+\.?\d*)').astype(float)` is
  `extractPrice` (first maximal digit run, optional decimal point, digits);
* the result dictionaries built by `process_hostel_data` are association
  lists `Rec` with Python-dict assignment (`setKey`: replace in place or
  append) and lookup (`getKey`);
* concurrency in `scrape_hotels` is modelled by an explicit fetch
  environment `FetchEnv` (the network oracle) and `asyncio.gather`'s
  documented order-preserving semantics, i.e. a `List.map` over the input.
-/

namespace Scraper

/-- Round a rational to the nearest integer, ties to even (Python's
`round` rule), computed on the numerator and denominator. -/
def roundHalfEven (y : ℚ) : ℤ :=
  let n := y.num
  let d : ℤ := (y.den : ℤ)
  let f := n.fdiv d
  let r2 := 2 * (n - f * d)
  if r2 < d then f
  else if d < r2 then f + 1
  else if f % 2 = 0 then f else f + 1

/-- Python's `round(x, 2)` (round half to even at two decimals), modelled
exactly on `ℚ`. -/
def round2 (x : ℚ) : ℚ :=
  (roundHalfEven (x * 100) : ℚ) / 100

/-- Value of a list of decimal digit characters. -/
def digitsToNat (ds : List Char) : ℕ :=
  ds.foldl (fun a c => 10 * a + (c.toNat - 48)) 0

/-- Model of the first match of the regex `(\d+\.?\d*)` over a character
stream: scan to the first digit, take the maximal digit run, an optional
decimal point, and the following maximal digit run.  Returns the integer
digits and the fractional digits. -/
def scanNumber : List Char → Option (List Char × List Char)
  | [] => none
  | c :: cs =>
    if c.isDigit then
      let intPart := (c :: cs).takeWhile Char.isDigit
      match (c :: cs).dropWhile Char.isDigit with
      | '.' :: rest => some (intPart, rest.takeWhile Char.isDigit)
      | _ => some (intPart, [])
    else scanNumber cs

/-- `df['avgPriceFormatted'].str.extract(r'(\d+\.?\d*)').astype(float)`:
the numeric value extracted from the formatted price text, or `none` when
the text has no digit (pandas yields NaN there, which the availability
filter later treats as not `> 0.01`). -/
def extractPrice (s : String) : Option ℚ :=
  match scanNumber s.toList with
  | none => none
  | some (ip, fp) => some ((digitsToNat ip : ℚ) + (digitsToNat fp : ℚ) / 10 ^ fp.length)

/-- One row of the per-day price dataframe.  `avgPriceFormatted` and
`checkin` come from the raw day record returned by the availability query
(`checkin` is the calendar date as a day index); `price` is the column
added by `parse_hotel_prices` (`none` before parsing or on extraction
failure). -/
structure Entry where
  avgPriceFormatted : String
  checkin : ℤ
  price : Option ℚ
  deriving DecidableEq, Repr

/-- The per-row effect of `parse_hotel_prices`: set the `price` column from
the formatted text.  The `date` column is `checkin` itself in this model. -/
def parseRow (e : Entry) : Entry :=
  { e with price := extractPrice e.avgPriceFormatted }

/-- `parse_hotel_prices` (finalapp.py lines 235-251): build the dataframe
and add the extracted `price` column.  Cardinality is preserved. -/
def parseHotelPrices (l : List Entry) : List Entry :=
  l.map parseRow

/-- The availability filter `df[df['price'] > 0.01]` (lines 463 and 572):
a row survives iff its extracted price exists and exceeds 0.01. -/
def keep (e : Entry) : Bool :=
  match e.price with
  | some p => decide ((0.01 : ℚ) < p)
  | none => false

/-- Normalization as the claims use it: parse the raw day records and then
apply the availability filter. -/
def normalizeDays (l : List Entry) : List Entry :=
  (parseHotelPrices l).filter keep

/-- `Series.min()` over the price column: fold of `min` over the list
(junk value 0 on the empty list, which the code never reaches). -/
def listMin : List ℚ → ℚ
  | [] => 0
  | x :: xs => xs.foldl min x

/-- `Series.mean()` over the price column: sum divided by length (the code
only evaluates it on non-empty frames). -/
def mean (l : List ℚ) : ℚ :=
  l.sum / (l.length : ℚ)

/-- The `price` column of a filtered frame (every kept row has a price). -/
def colPrice (l : List Entry) : List ℚ :=
  l.map (fun e => e.price.getD 0)

/-- `is_date_range = end_date is not None and end_date != selected_date`
(line 444). -/
def isDateRange (sd ed : Option ℤ) : Bool :=
  ed.isSome && decide (ed ≠ sd)

/-- `(end_date - selected_date).days + 1 if end_date else 1` (lines 494 and
603).  When `end_date` is present but `selected_date` is `none` the Python
expression would raise; that combination is unreachable from the app's
entry points and is given the junk value 1 here. -/
def totalDaysInRange (sd ed : Option ℤ) : ℤ :=
  match ed, sd with
  | some e, some s => e - s + 1
  | some _, none => 1
  | none, _ => 1

/-- Selection of the representative price (lines 479-503 / 588-612): on a
single-date query filter to the exact date and take the minimum (`none`
when no row matches, which makes the caller `continue`); otherwise take the
mean of all availability-filtered rows. -/
def selectPrice (sd : Option ℤ) (idr : Bool) (filtered : List Entry) : Option ℚ :=
  match sd, idr with
  | some d, false =>
    let dfd := filtered.filter (fun x => x.checkin == d)
    if dfd = [] then none else some (listMin (colPrice dfd))
  | _, _ => some (mean (colPrice filtered))

/-- A value stored in a result dictionary. -/
inductive Val where
  | q (x : ℚ)
  | b (x : Bool)
  | s (x : String)
  | i (x : ℤ)
  | n (x : ℕ)
  deriving DecidableEq, Repr

/-- A Python result dictionary: insertion-ordered association list. -/
abbrev Rec := List (String × Val)

/-- Python dict assignment `r[k] = v`: replace in place if the key exists,
otherwise append. -/
def setKey : Rec → String → Val → Rec
  | [], k, v => [(k, v)]
  | (k', v') :: t, k, v =>
    if k' = k then (k', v) :: t else (k', v') :: setKey t k v

/-- Python dict lookup `r.get(k)`. -/
def getKey : Rec → String → Option Val
  | [], _ => none
  | (k', v') :: t, k => if k' = k then some v' else getKey t k

/-- One element of the `hostels_data` list consumed by
`process_hostel_data`: the fields of the hostel dictionary that the
function reads.  `tipo` is `hostel.get('type', 'Unknown Type')` kept as the
raw string, `original_name` is
`hostel.get('original_name', hostel.get('name', 'Unknown Hotel'))`. -/
structure HostelData where
  error : Option String
  original_name : String
  tipo : String
  url : String
  price_2_adults : List Entry
  price_1_adult : List Entry
  deriving DecidableEq, Repr

/-- The dictionary literal at lines 451-455. -/
def baseRec (h : HostelData) : Rec :=
  [("Nombre Hotel", Val.s h.original_name),
   ("Tipo", Val.s h.tipo),
   ("URL", Val.s h.url)]

/-- The type-dependent 2-adult pricing rules (lines 505-564), applied to
the representative price `P`.  Mirrors the `elif` chain on the raw type
string, including the accented spelling of the hybrid category. -/
def applyRules2A (tipo : String) (P : ℚ) (r : Rec) : Rec :=
  if tipo = "Privado" then
    let r := setKey r "Precio Hab Baño Privado 2 Adultos" (Val.q (round2 P))
    let r := setKey r "Precio Hab Baño Compartido 2 Adultos" (Val.q (round2 (P * 0.8)))
    let r := setKey r "Precio Hab Baño Compartido 2 Adultos (Calculado)" (Val.b true)
    let pstp := P - 5.5 * 2
    let ip := pstp * 0.08
    let r := setKey r "Precio Sin Tasa Privado 2 Adultos" (Val.q (round2 (pstp - ip)))
    let r := setKey r "Tasa Turística 2 Adultos" (Val.q (5.5 * 2))
    let r := setKey r "Interés 8% Privado 2 Adultos" (Val.q (round2 ip))
    let pstc := P * 0.8 - 5.5 * 2
    let ic := pstc * 0.08
    let r := setKey r "Precio Sin Tasa Compartido 2 Adultos" (Val.q (round2 (pstc - ic)))
    setKey r "Interés 8% Compartido 2 Adultos" (Val.q (round2 ic))
  else if tipo = "Compartido" then
    let r := setKey r "Precio Hab Baño Compartido 2 Adultos" (Val.q (round2 P))
    let r := setKey r "Precio Hab Baño Privado 2 Adultos" (Val.q (round2 (P * 1.2)))
    let r := setKey r "Precio Hab Baño Privado 2 Adultos (Calculado)" (Val.b true)
    let pstc := P - 5.5 * 2
    let ic := pstc * 0.08
    let r := setKey r "Precio Sin Tasa Compartido 2 Adultos" (Val.q (round2 (pstc - ic)))
    let r := setKey r "Tasa Turística 2 Adultos" (Val.q (5.5 * 2))
    let r := setKey r "Interés 8% Compartido 2 Adultos" (Val.q (round2 ic))
    let pstp := P * 1.2 - 5.5 * 2
    let ip := pstp * 0.08
    let r := setKey r "Precio Sin Tasa Privado 2 Adultos" (Val.q (round2 (pstp - ip)))
    setKey r "Interés 8% Privado 2 Adultos" (Val.q (round2 ip))
  else if tipo = "Híbrido" ∨ tipo = "Hibrido" then
    let r := setKey r "Precio Hab Baño Compartido 2 Adultos" (Val.q (round2 P))
    let r := setKey r "Precio Hab Baño Privado 2 Adultos" (Val.q (round2 (P * 1.2)))
    let r := setKey r "Precio Hab Baño Privado 2 Adultos (Calculado)" (Val.b true)
    let pstc := P - 5.5 * 2
    let ic := pstc * 0.08
    let r := setKey r "Precio Sin Tasa Compartido 2 Adultos" (Val.q (round2 (pstc - ic)))
    let r := setKey r "Tasa Turística 2 Adultos" (Val.q (5.5 * 2))
    let r := setKey r "Interés 8% Compartido 2 Adultos" (Val.q (round2 ic))
    let pstp := P * 1.2 - 5.5 * 2
    let ip := pstp * 0.08
    let r := setKey r "Precio Sin Tasa Privado 2 Adultos" (Val.q (round2 (pstp - ip)))
    setKey r "Interés 8% Privado 2 Adultos" (Val.q (round2 ip))
  else r

/-- The 1-adult pricing rules (lines 614-650): only the shared-room variant
is produced (the private 1-adult computation was deliberately removed). -/
def applyRules1A (tipo : String) (P : ℚ) (r : Rec) : Rec :=
  if tipo = "Privado" then
    let r := setKey r "Precio Hab Baño Compartido 1 Adulto" (Val.q (round2 (P * 0.8)))
    let pstc := P * 0.8 - 5.5
    let ic := pstc * 0.08
    let r := setKey r "Precio Sin Tasa Compartido 1 Adulto" (Val.q (round2 (pstc - ic)))
    let r := setKey r "Tasa Turística 1 Adulto" (Val.q 5.5)
    setKey r "Interés 8% Compartido 1 Adulto" (Val.q (round2 ic))
  else if tipo = "Compartido" then
    let r := setKey r "Precio Hab Baño Compartido 1 Adulto" (Val.q (round2 P))
    let pstc := P - 5.5
    let ic := pstc * 0.08
    let r := setKey r "Precio Sin Tasa Compartido 1 Adulto" (Val.q (round2 (pstc - ic)))
    let r := setKey r "Tasa Turística 1 Adulto" (Val.q 5.5)
    setKey r "Interés 8% Compartido 1 Adulto" (Val.q (round2 ic))
  else if tipo = "Híbrido" ∨ tipo = "Hibrido" then
    let r := setKey r "Precio Hab Baño Compartido 1 Adulto" (Val.q (round2 P))
    let pstc := P - 5.5
    let ic := pstc * 0.08
    let r := setKey r "Precio Sin Tasa Compartido 1 Adulto" (Val.q (round2 (pstc - ic)))
    let r := setKey r "Tasa Turística 1 Adulto" (Val.q 5.5)
    setKey r "Interés 8% Compartido 1 Adulto" (Val.q (round2 ic))
  else r

/-- The 2-adult processing block (lines 458-564).  `none` models the
`continue` statements at lines 476 and 485: the whole hostel is skipped.
`some r` returns the (possibly extended) result dictionary.  `idr` and
`tdays` are `is_date_range` and `total_days_in_range` as computed by the
caller; the redundant `if not df_2_adults_filtered.empty` re-check at line
498 is always true on the paths that reach it and is omitted. -/
def twoAdultBlock (sd : Option ℤ) (idr : Bool) (tdays : ℤ)
    (h : HostelData) (r0 : Rec) : Option Rec :=
  if h.price_2_adults = [] then some r0
  else
    let df := parseHotelPrices h.price_2_adults
    if df = [] then some r0
    else
      let filtered := df.filter keep
      if filtered = [] then none
      else
        let r1 :=
          if sd.isSome && !idr then r0
          else
            setKey (setKey r0 "Días con Disponibilidad" (Val.n filtered.length))
              "Total Días en Rango" (Val.i tdays)
        match selectPrice sd idr filtered with
        | none => none
        | some P => some (applyRules2A h.tipo P r1)

/-- The 1-adult processing block (lines 567-650), structured exactly like
the 2-adult one with the `1A` availability keys. -/
def oneAdultBlock (sd : Option ℤ) (idr : Bool) (tdays : ℤ)
    (h : HostelData) (r0 : Rec) : Option Rec :=
  if h.price_1_adult = [] then some r0
  else
    let df := parseHotelPrices h.price_1_adult
    if df = [] then some r0
    else
      let filtered := df.filter keep
      if filtered = [] then none
      else
        let r1 :=
          if sd.isSome && !idr then r0
          else
            setKey (setKey r0 "Días con Disponibilidad 1A" (Val.n filtered.length))
              "Total Días en Rango 1A" (Val.i tdays)
        match selectPrice sd idr filtered with
        | none => none
        | some P => some (applyRules1A h.tipo P r1)

/-- `key.startswith(pre)` on the underlying character lists. -/
def charsStart : List Char → List Char → Bool
  | _, [] => true
  | [], _ :: _ => false
  | a :: as, b :: bs => a == b && charsStart as bs

/-- `key.startswith('Precio')` for a result key. -/
def keyIsPrecio (k : String) : Bool :=
  charsStart k.toList "Precio".toList

/-- Lines 652-654: if no key of the record starts with `Precio`, attach an
`Error` marker. -/
def finalize (r : Rec) : Rec :=
  if r.any (fun kv => keyIsPrecio kv.1) then r
  else setKey r "Error" (Val.s "No pricing data available for this hostel")

/-- Outcome of processing one hostel dictionary. -/
inductive Step where
  | errorHostel
  | skipped
  | emit (r : Rec)
  deriving DecidableEq, Repr

/-- The per-hostel body of `process_hostel_data`'s loop (lines 446-656):
error records go to the error list, a `continue` inside either price block
drops the hostel entirely, otherwise the assembled record is appended. -/
def processOne (sd ed : Option ℤ) (h : HostelData) : Step :=
  if h.error.isSome then Step.errorHostel
  else
    match twoAdultBlock sd (isDateRange sd ed) (totalDaysInRange sd ed) h (baseRec h) with
    | none => Step.skipped
    | some r1 =>
      match oneAdultBlock sd (isDateRange sd ed) (totalDaysInRange sd ed) h r1 with
      | none => Step.skipped
      | some r2 => Step.emit (finalize r2)

/-- `process_hostel_data` (lines 439-659): returns the processed records
and the error hostels, both in input order. -/
def processHostelData (sd ed : Option ℤ) : List HostelData → List Rec × List HostelData
  | [] => ([], [])
  | h :: t =>
    let rest := processHostelData sd ed t
    match processOne sd ed h with
    | Step.errorHostel => (rest.1, h :: rest.2)
    | Step.skipped => rest
    | Step.emit r => (r :: rest.1, rest.2)

/-- Key lookup through a `Step` (none unless a record was emitted). -/
def stepGet (st : Step) (k : String) : Option Val :=
  match st with
  | Step.emit r => getKey r k
  | _ => none

/-!
Model of `scrape_hotels` (lines 254-436).  The network is an explicit
oracle `FetchEnv`; the regex token extraction over the landing-page HTML
(lines 216-309) is abstracted to the optional capture results carried by
`PageBody` (what each `re` call would return), with the defaulting logic
of the source kept explicit.  `asyncio.gather` over the comprehension at
line 435 returns results in argument order, modelled as `List.map`.
-/

/-- Result of one `scrape_prices` call as seen by `scrape_hostel`: the
call either raises or returns the day list. -/
inductive PriceOutcome where
  | raises (msg : String)
  | ok (days : List Entry)
  deriving DecidableEq, Repr

/-- The landing-page response body, abstracted to the capture results of
the regex searches run on it: `hotelName:"..."` (line 218/297), the
URL-pattern fallback on the page text (line 223) and on `resp.url`
(line 300) already converted to a readable name, `hotelCountry` (line 292)
and the CSRF token (line 307), plus `str(resp.url)`. -/
structure PageBody where
  hotelNameTok : Option String
  urlNameTok : Option String
  respUrlNameTok : Option String
  countryTok : Option String
  csrfTok : Option String
  respUrl : String
  deriving DecidableEq, Repr

/-- Result of the landing-page GET: an exception or a response with a
status code and body. -/
inductive PageOutcome where
  | raises (msg : String)
  | resp (statusCode : ℕ) (body : PageBody)
  deriving DecidableEq, Repr

/-- One input hostel dictionary: every field access in the source goes
through `.get`, so each field is optional. -/
structure HostelInput where
  name : Option String
  tipo : Option String
  url : Option String
  link : Option String
  deriving DecidableEq, Repr

/-- The network oracle: what the landing-page fetch and each
`scrape_prices` call (by adult count) return for a given hostel. -/
structure FetchEnv where
  page : HostelInput → PageOutcome
  prices : HostelInput → ℕ → PriceOutcome

/-- The assembled `hotel_info` success dictionary (lines 285-347). -/
structure HotelInfo where
  name : String
  url : String
  tipo : String
  original_name : String
  price2 : List Entry
  price2_error : Option String
  price1 : List Entry
  price1_error : Option String
  deriving DecidableEq, Repr

/-- A per-hostel result: an error-shaped record (lines 262-267, 277-282,
353-358) or the success dictionary. -/
inductive ScrapeResult where
  | err (name tipo url errMsg : String)
  | ok (info : HotelInfo)
  deriving DecidableEq, Repr

/-- `hostel.get('url', hostel.get('link', ''))` (line 257). -/
def effectiveUrl (h : HostelInput) : String :=
  match h.url with
  | some u => u
  | none =>
    match h.link with
    | some l => l
    | none => ""

/-- `scrape_hostel` (lines 255-358): empty URL short-circuits without any
network call; an exception or non-200 landing page yields an error record;
otherwise tokens are extracted with their fallbacks and the two
availability queries are run independently, each failure being captured
per-field. -/
def scrape_hostel (env : FetchEnv) (h : HostelInput) : ScrapeResult :=
  let url := effectiveUrl h
  let nm := h.name.getD "Unknown Hotel"
  let tp := h.tipo.getD "Unknown Type"
  if url = "" then ScrapeResult.err nm tp url "Missing URL"
  else
    match env.page h with
    | PageOutcome.raises msg => ScrapeResult.err nm tp url msg
    | PageOutcome.resp code body =>
      if code ≠ 200 then ScrapeResult.err nm tp url ("HTTP status " ++ toString code)
      else
        let parsedName := body.hotelNameTok.getD (body.urlNameTok.getD "Unknown Hotel")
        let hotelName := body.hotelNameTok.getD (body.respUrlNameTok.getD nm)
        let finalName := if hotelName ≠ "" ∧ parsedName = "" then hotelName else parsedName
        let p2 := match env.prices h 2 with
          | PriceOutcome.raises m => ([], some m)
          | PriceOutcome.ok days => (days, none)
        let p1 := match env.prices h 1 with
          | PriceOutcome.raises m => ([], some m)
          | PriceOutcome.ok days => (days, none)
        ScrapeResult.ok
          { name := finalName, url := body.respUrl, tipo := tp, original_name := nm,
            price2 := p2.1, price2_error := p2.2, price1 := p1.1, price1_error := p1.2 }

/-- `scrape_hotels` (line 435): `asyncio.gather` over one task per input
hostel, results in argument order. -/
def scrape_hotels (env : FetchEnv) (hs : List HostelInput) : List ScrapeResult :=
  hs.map (scrape_hostel env)

/-!
Model of the response handling inside `scrape_prices` (lines 360-433).
-/

/-- A decoded JSON value. -/
inductive JVal where
  | jnull
  | jbool (b : Bool)
  | jnum (q : ℚ)
  | jstr (s : String)
  | jarr (xs : List JVal)
  | jobj (fields : List (String × JVal))

/-- Lookup of a key among object fields. -/
def lookupField : List (String × JVal) → String → Option JVal
  | [], _ => none
  | (k', v) :: t, k => if k' = k then some v else lookupField t k

/-- Python `element == k` for a string `k`: true only for the equal
string (values of any other type compare unequal to a string). -/
def jvalEqStr : JVal → String → Bool
  | JVal.jstr s, k => s == k
  | _, _ => false

/-- Whether a character list contains `pat` as a contiguous substring. -/
def charsContains (pat : List Char) : List Char → Bool
  | [] => charsStart [] pat
  | c :: t => charsStart (c :: t) pat || charsContains pat t

/-- Python `k in v` on a decoded JSON value: key membership for dicts,
element membership for lists, substring test for strings, and a raised
`TypeError` for `null`, booleans and numbers. -/
def hasMember : JVal → String → Except String Bool
  | JVal.jobj fields, k => Except.ok (lookupField fields k).isSome
  | JVal.jarr xs, k => Except.ok (xs.any (fun x => jvalEqStr x k))
  | JVal.jstr s, k => Except.ok (charsContains k.toList s.toList)
  | JVal.jnull, _ => Except.error "TypeError: argument of type NoneType is not iterable"
  | JVal.jbool _, _ => Except.error "TypeError: argument of type bool is not iterable"
  | JVal.jnum _, _ => Except.error "TypeError: argument of type number is not iterable"

/-- Python `v[k]` with a string key `k`: dict lookup (`KeyError` when the
key is absent — never reached by the source, which subscripts a dict only
after a successful membership test on the same value); a raised
`TypeError` for every non-dict. -/
def getItem : JVal → String → Except String JVal
  | JVal.jobj fields, k =>
    match lookupField fields k with
    | some v => Except.ok v
    | none => Except.error "KeyError"
  | JVal.jarr _, _ => Except.error "TypeError: list indices must be integers"
  | JVal.jstr _, _ => Except.error "TypeError: string indices must be integers"
  | JVal.jnull, _ => Except.error "TypeError: NoneType object is not subscriptable"
  | JVal.jbool _, _ => Except.error "TypeError: bool object is not subscriptable"
  | JVal.jnum _, _ => Except.error "TypeError: number object is not subscriptable"

/-- `price_n_days` (lines 362-372): span of the requested window, capped
at 30. -/
def price_n_days (start_date : ℤ) (end_date : Option ℤ) : ℤ :=
  match end_date with
  | some e => if e - start_date + 1 > 30 then 30 else e - start_date + 1
  | none => 1

/-- The day span exactly as claim C8 words it: `(end − start).days + 1`
when an end date is given, else 1. -/
def dayspanSpec (start_date : ℤ) (end_date : Option ℤ) : ℤ :=
  match end_date with
  | some e => e - start_date + 1
  | none => 1

/-- Response handling of `scrape_prices` (lines 405-433): `decoded` is the
result of `json.loads` on the POST response (`Except.error` when decoding
raises).  The transport status code is taken as an argument to make its
treatment visible: the source never inspects it.  The envelope checks of
lines 418-424 run left to right with Python's short-circuit `or`: a
membership test reporting a missing member returns the empty list, while a
`TypeError` raised by a membership test or a subscript on a non-container
(e.g. `price_data["data"]` being `null`) propagates, re-raised unchanged
at line 433, as does a decode failure.  The source re-subscripts
`price_data["data"]` (and then `["availabilityCalendar"]`) at each use;
subscripting is pure, so the once-bound value is identical. -/
def scrapePricesOutcome (statusCode : ℕ) (decoded : Except String JVal) :
    Except String JVal :=
  match decoded with
  | Except.error m => Except.error m
  | Except.ok pd =>
    match hasMember pd "data" with
    | Except.error m => Except.error m
    | Except.ok false => Except.ok (JVal.jarr [])
    | Except.ok true =>
      match getItem pd "data" with
      | Except.error m => Except.error m
      | Except.ok d =>
        match hasMember d "availabilityCalendar" with
        | Except.error m => Except.error m
        | Except.ok false => Except.ok (JVal.jarr [])
        | Except.ok true =>
          match getItem d "availabilityCalendar" with
          | Except.error m => Except.error m
          | Except.ok ac =>
            match hasMember ac "days" with
            | Except.error m => Except.error m
            | Except.ok false => Except.ok (JVal.jarr [])
            | Except.ok true =>
              match getItem ac "days" with
              | Except.error m => Except.error m
              | Except.ok days => Except.ok days

/-- Whether an `Except` outcome is a success. -/
def isOkOutcome (x : Except String JVal) : Bool :=
  match x with
  | Except.ok _ => true
  | Except.error _ => false

/-- Sample scraped hostel: category `Privado`, one day at price 101. -/
def hostel101 : HostelData :=
  { error := none, original_name := "Hostal Ramos", tipo := "Privado", url := "u",
    price_2_adults := [⟨"101", 0, none⟩], price_1_adult := [] }

/-- Sample scraped hostel whose 2-adult day list is non-empty but entirely
zero-priced (no availability), with a valid 1-adult price. -/
def hostelZero2A : HostelData :=
  { error := none, original_name := "Hostal Z", tipo := "Privado", url := "u",
    price_2_adults := [⟨"0", 0, none⟩], price_1_adult := [⟨"50", 0, none⟩] }

/-- Sample day entry with a parsable positive price. -/
def entry125 : Entry := ⟨"12.5", 3, none⟩

/-- Sample day entry whose price text has no numeric substring. -/
def entryNA : Entry := ⟨"n/a", 0, none⟩

/-- Sample filtered frame rows used to instantiate the selection claims. -/
def frameRows : List Entry := [⟨"101", 0, some 101⟩, ⟨"95", 1, some 95⟩]

/-- Sample fetch environment whose page fetch always raises. -/
def envRaises : FetchEnv :=
  { page := fun _ => PageOutcome.raises "boom",
    prices := fun _ _ => PriceOutcome.raises "x" }

/-- A second environment that differs from `envRaises` only on hostels
with URL `other`. -/
def envRaises' : FetchEnv :=
  { page := fun h => if h.url = some "other" then PageOutcome.raises "z"
      else PageOutcome.raises "boom",
    prices := fun h _ => if h.url = some "other" then PriceOutcome.ok []
      else PriceOutcome.raises "x" }

/-- Sample input hostel with a URL. -/
def inputA : HostelInput := { name := some "A", tipo := some "Privado", url := some "u", link := none }

/-- The record `process_hostel_data` emits for `hostel101` on a single-date
query for its one scraped day (all monetary values written out). -/
def rec101 : Rec :=
  [("Nombre Hotel", Val.s "Hostal Ramos"),
   ("Tipo", Val.s "Privado"),
   ("URL", Val.s "u"),
   ("Precio Hab Baño Privado 2 Adultos", Val.q 101),
   ("Precio Hab Baño Compartido 2 Adultos", Val.q 80.8),
   ("Precio Hab Baño Compartido 2 Adultos (Calculado)", Val.b true),
   ("Precio Sin Tasa Privado 2 Adultos", Val.q 82.8),
   ("Tasa Turística 2 Adultos", Val.q 11),
   ("Interés 8% Privado 2 Adultos", Val.q 7.2),
   ("Precio Sin Tasa Compartido 2 Adultos", Val.q 64.22),
   ("Interés 8% Compartido 2 Adultos", Val.q 5.58)]

/-- Sample hostel of an unrecognized category (the pricing-rule chain adds
no keys for it), used to exhibit the range availability fields. -/
def hostelU : HostelData :=
  { error := none, original_name := "U", tipo := "X", url := "",
    price_2_adults := [⟨"101", 0, none⟩], price_1_adult := [] }

end Scraper

namespace Scraper

/-! ### Helper lemmas -/

theorem getKey_setKey_self (r : Rec) (k : String) (v : Val) :
    getKey (setKey r k v) k = some v := by
  induction r with
  | nil => simp [setKey, getKey]
  | cons hd t ih =>
    by_cases h : hd.1 = k
    · simp [setKey, getKey, h]
    · simp [setKey, getKey, h, ih]

theorem getKey_setKey_of_ne (r : Rec) {k k' : String} (v : Val) (h : k' ≠ k) :
    getKey (setKey r k' v) k = getKey r k := by
  induction r with
  | nil => simp [setKey, getKey, h]
  | cons hd t ih =>
    by_cases h2 : hd.1 = k'
    · simp [setKey, getKey, h2, h]
    · by_cases h3 : hd.1 = k
      · simp [setKey, getKey, h2, h3, Ne.symm h]
      · simp [setKey, getKey, h2, h3, ih]

theorem foldl_min_le (xs : List ℚ) (a : ℚ) :
    xs.foldl min a ≤ a ∧ ∀ q ∈ xs, xs.foldl min a ≤ q := by
  induction xs generalizing a with
  | nil => simp
  | cons x t ih =>
    refine ⟨le_trans (ih (min a x)).1 (min_le_left a x), ?_⟩
    intro q hq
    rcases List.mem_cons.mp hq with h | h
    · subst h
      exact le_trans (ih (min a q)).1 (min_le_right a q)
    · exact (ih (min a x)).2 q h

theorem foldl_min_mem (xs : List ℚ) (a : ℚ) :
    xs.foldl min a = a ∨ xs.foldl min a ∈ xs := by
  induction xs generalizing a with
  | nil => simp
  | cons x t ih =>
    rcases ih (min a x) with h | h
    · rcases min_cases a x with ⟨he, _⟩ | ⟨he, _⟩
      · left
        simp only [List.foldl_cons]
        rw [h, he]
      · right
        simp only [List.foldl_cons]
        rw [h, he]
        exact List.mem_cons_self x t
    · right
      exact List.mem_cons_of_mem x h

theorem listMin_mem {l : List ℚ} (h : l ≠ []) : listMin l ∈ l := by
  cases l with
  | nil => exact absurd rfl h
  | cons x t =>
    rcases foldl_min_mem t x with h2 | h2
    · rw [listMin, h2]
      exact List.mem_cons_self x t
    · exact List.mem_cons_of_mem x h2

theorem listMin_le (l : List ℚ) : ∀ q ∈ l, listMin l ≤ q := by
  cases l with
  | nil => simp
  | cons x t =>
    intro q hq
    rcases List.mem_cons.mp hq with h | h
    · subst h
      exact (foldl_min_le t q).1
    · exact (foldl_min_le t x).2 q h

theorem parseRow_parseRow (e : Entry) : parseRow (parseRow e) = parseRow e := rfl

theorem extractPrice_101 : extractPrice "101" = some 101 := by
  have hscan : scanNumber ['1', '0', '1'] = some (['1', '0', '1'], []) := by decide
  simp [extractPrice, hscan, digitsToNat]

theorem keep_101 : keep ⟨"101", 0, some 101⟩ = true := by
  simp [keep]
  norm_num

theorem extractPrice_zero : extractPrice "0" = some 0 := by
  have hscan : scanNumber ['0'] = some (['0'], []) := by decide
  simp [extractPrice, hscan, digitsToNat]

theorem keep_zero : keep ⟨"0", 0, some 0⟩ = false := by
  simp [keep]
  norm_num

theorem extractPrice_50 : extractPrice "50" = some 50 := by
  have hscan : scanNumber ['5', '0'] = some (['5', '0'], []) := by decide
  simp [extractPrice, hscan, digitsToNat]

theorem parseHotelPrices_eq_nil {l : List Entry} :
    parseHotelPrices l = [] ↔ l = [] := by
  simp [parseHotelPrices]

theorem getKey_finalize_of_ne (r : Rec) {k : String} (hk : k ≠ "Error") :
    getKey (finalize r) k = getKey r k := by
  unfold finalize
  split_ifs with h
  · rfl
  · exact getKey_setKey_of_ne _ _ (Ne.symm hk)

theorem getKey_applyRules2A_of_ne (t : String) (P : ℚ) (r : Rec) (k : String)
    (h1 : k ≠ "Precio Hab Baño Privado 2 Adultos")
    (h2 : k ≠ "Precio Hab Baño Compartido 2 Adultos")
    (h3 : k ≠ "Precio Hab Baño Compartido 2 Adultos (Calculado)")
    (h4 : k ≠ "Precio Hab Baño Privado 2 Adultos (Calculado)")
    (h5 : k ≠ "Precio Sin Tasa Privado 2 Adultos")
    (h6 : k ≠ "Tasa Turística 2 Adultos")
    (h7 : k ≠ "Interés 8% Privado 2 Adultos")
    (h8 : k ≠ "Precio Sin Tasa Compartido 2 Adultos")
    (h9 : k ≠ "Interés 8% Compartido 2 Adultos") :
    getKey (applyRules2A t P r) k = getKey r k := by
  have g1 := fun (r : Rec) (v : Val) => getKey_setKey_of_ne r v (Ne.symm h1)
  have g2 := fun (r : Rec) (v : Val) => getKey_setKey_of_ne r v (Ne.symm h2)
  have g3 := fun (r : Rec) (v : Val) => getKey_setKey_of_ne r v (Ne.symm h3)
  have g4 := fun (r : Rec) (v : Val) => getKey_setKey_of_ne r v (Ne.symm h4)
  have g5 := fun (r : Rec) (v : Val) => getKey_setKey_of_ne r v (Ne.symm h5)
  have g6 := fun (r : Rec) (v : Val) => getKey_setKey_of_ne r v (Ne.symm h6)
  have g7 := fun (r : Rec) (v : Val) => getKey_setKey_of_ne r v (Ne.symm h7)
  have g8 := fun (r : Rec) (v : Val) => getKey_setKey_of_ne r v (Ne.symm h8)
  have g9 := fun (r : Rec) (v : Val) => getKey_setKey_of_ne r v (Ne.symm h9)
  unfold applyRules2A
  split_ifs <;> simp only [g1, g2, g3, g4, g5, g6, g7, g8, g9]

theorem getKey_applyRules1A_of_ne (t : String) (P : ℚ) (r : Rec) (k : String)
    (h1 : k ≠ "Precio Hab Baño Compartido 1 Adulto")
    (h2 : k ≠ "Precio Sin Tasa Compartido 1 Adulto")
    (h3 : k ≠ "Tasa Turística 1 Adulto")
    (h4 : k ≠ "Interés 8% Compartido 1 Adulto") :
    getKey (applyRules1A t P r) k = getKey r k := by
  have g1 := fun (r : Rec) (v : Val) => getKey_setKey_of_ne r v (Ne.symm h1)
  have g2 := fun (r : Rec) (v : Val) => getKey_setKey_of_ne r v (Ne.symm h2)
  have g3 := fun (r : Rec) (v : Val) => getKey_setKey_of_ne r v (Ne.symm h3)
  have g4 := fun (r : Rec) (v : Val) => getKey_setKey_of_ne r v (Ne.symm h4)
  unfold applyRules1A
  split_ifs <;> simp only [g1, g2, g3, g4]

theorem getKey_twoAdultBlock_of_ne (sd : Option ℤ) (idr : Bool) (tdays : ℤ)
    (h : HostelData) (r0 r' : Rec) (k : String)
    (hb : twoAdultBlock sd idr tdays h r0 = some r')
    (h1 : k ≠ "Precio Hab Baño Privado 2 Adultos")
    (h2 : k ≠ "Precio Hab Baño Compartido 2 Adultos")
    (h3 : k ≠ "Precio Hab Baño Compartido 2 Adultos (Calculado)")
    (h4 : k ≠ "Precio Hab Baño Privado 2 Adultos (Calculado)")
    (h5 : k ≠ "Precio Sin Tasa Privado 2 Adultos")
    (h6 : k ≠ "Tasa Turística 2 Adultos")
    (h7 : k ≠ "Interés 8% Privado 2 Adultos")
    (h8 : k ≠ "Precio Sin Tasa Compartido 2 Adultos")
    (h9 : k ≠ "Interés 8% Compartido 2 Adultos")
    (hA : k ≠ "Días con Disponibilidad")
    (hB : k ≠ "Total Días en Rango") :
    getKey r' k = getKey r0 k := by
  simp only [twoAdultBlock] at hb
  split_ifs at hb with e1 e2 e3 e4
  · rw [← Option.some.inj hb]
  · rw [← Option.some.inj hb]
  · cases hsel : selectPrice sd idr ((parseHotelPrices h.price_2_adults).filter keep) with
    | none =>
      rw [hsel] at hb
      exact absurd hb (by simp)
    | some P =>
      rw [hsel] at hb
      rw [← Option.some.inj hb]
      exact getKey_applyRules2A_of_ne _ _ _ _ h1 h2 h3 h4 h5 h6 h7 h8 h9
  · cases hsel : selectPrice sd idr ((parseHotelPrices h.price_2_adults).filter keep) with
    | none =>
      rw [hsel] at hb
      exact absurd hb (by simp)
    | some P =>
      rw [hsel] at hb
      rw [← Option.some.inj hb]
      rw [getKey_applyRules2A_of_ne _ _ _ _ h1 h2 h3 h4 h5 h6 h7 h8 h9]
      rw [getKey_setKey_of_ne _ _ (Ne.symm hB), getKey_setKey_of_ne _ _ (Ne.symm hA)]

theorem getKey_oneAdultBlock_of_ne (sd : Option ℤ) (idr : Bool) (tdays : ℤ)
    (h : HostelData) (r0 r' : Rec) (k : String)
    (hb : oneAdultBlock sd idr tdays h r0 = some r')
    (h1 : k ≠ "Precio Hab Baño Compartido 1 Adulto")
    (h2 : k ≠ "Precio Sin Tasa Compartido 1 Adulto")
    (h3 : k ≠ "Tasa Turística 1 Adulto")
    (h4 : k ≠ "Interés 8% Compartido 1 Adulto")
    (hA : k ≠ "Días con Disponibilidad 1A")
    (hB : k ≠ "Total Días en Rango 1A") :
    getKey r' k = getKey r0 k := by
  simp only [oneAdultBlock] at hb
  split_ifs at hb with e1 e2 e3 e4
  · rw [← Option.some.inj hb]
  · rw [← Option.some.inj hb]
  · cases hsel : selectPrice sd idr ((parseHotelPrices h.price_1_adult).filter keep) with
    | none =>
      rw [hsel] at hb
      exact absurd hb (by simp)
    | some P =>
      rw [hsel] at hb
      rw [← Option.some.inj hb]
      exact getKey_applyRules1A_of_ne _ _ _ _ h1 h2 h3 h4
  · cases hsel : selectPrice sd idr ((parseHotelPrices h.price_1_adult).filter keep) with
    | none =>
      rw [hsel] at hb
      exact absurd hb (by simp)
    | some P =>
      rw [hsel] at hb
      rw [← Option.some.inj hb]
      rw [getKey_applyRules1A_of_ne _ _ _ _ h1 h2 h3 h4]
      rw [getKey_setKey_of_ne _ _ (Ne.symm hB), getKey_setKey_of_ne _ _ (Ne.symm hA)]

theorem processOne_hostel101 : processOne (some 0) none hostel101 = Step.emit rec101 := by
  have f1 : Int.fdiv 10100 1 = 10100 := by decide
  have f2 : Int.fdiv 8080 1 = 8080 := by decide
  have f3 : Int.fdiv 8280 1 = 8280 := by decide
  have f4 : Int.fdiv 720 1 = 720 := by decide
  have f5 : Int.fdiv 32108 5 = 6421 := by decide
  have f6 : Int.fdiv 2792 5 = 558 := by decide
  simp [processOne, twoAdultBlock, oneAdultBlock, hostel101, parseHotelPrices,
    parseRow, extractPrice_101, isDateRange, totalDaysInRange, baseRec, selectPrice,
    listMin, colPrice, applyRules2A, setKey, getKey, finalize, keyIsPrecio, charsStart,
    rec101, keep_101]
  norm_num [round2, roundHalfEven, f1, f2, f3, f4, f5, f6]

theorem twoAdultBlock_none_of_filter (sd : Option ℤ) (idr : Bool) (tdays : ℤ)
    (h : HostelData) (r0 : Rec) (hne : h.price_2_adults ≠ [])
    (hf : (parseHotelPrices h.price_2_adults).filter keep = []) :
    twoAdultBlock sd idr tdays h r0 = none := by
  simp only [twoAdultBlock]
  rw [if_neg hne, if_neg (fun hx => hne (parseHotelPrices_eq_nil.mp hx)), if_pos hf]

theorem twoAdultBlock_none_of_date (d : ℤ) (tdays : ℤ) (h : HostelData) (r0 : Rec)
    (hne : h.price_2_adults ≠ [])
    (hdf : ((parseHotelPrices h.price_2_adults).filter keep).filter
      (fun x => x.checkin == d) = []) :
    twoAdultBlock (some d) false tdays h r0 = none := by
  simp only [twoAdultBlock]
  rw [if_neg hne, if_neg (fun hx => hne (parseHotelPrices_eq_nil.mp hx))]
  by_cases hfe : (parseHotelPrices h.price_2_adults).filter keep = []
  · rw [if_pos hfe]
  · rw [if_neg hfe]
    simp [selectPrice, hdf]

theorem oneAdultBlock_none_of_filter (sd : Option ℤ) (idr : Bool) (tdays : ℤ)
    (h : HostelData) (r0 : Rec) (hne : h.price_1_adult ≠ [])
    (hf : (parseHotelPrices h.price_1_adult).filter keep = []) :
    oneAdultBlock sd idr tdays h r0 = none := by
  simp only [oneAdultBlock]
  rw [if_neg hne, if_neg (fun hx => hne (parseHotelPrices_eq_nil.mp hx)), if_pos hf]

theorem oneAdultBlock_none_of_date (d : ℤ) (tdays : ℤ) (h : HostelData) (r0 : Rec)
    (hne : h.price_1_adult ≠ [])
    (hdf : ((parseHotelPrices h.price_1_adult).filter keep).filter
      (fun x => x.checkin == d) = []) :
    oneAdultBlock (some d) false tdays h r0 = none := by
  simp only [oneAdultBlock]
  rw [if_neg hne, if_neg (fun hx => hne (parseHotelPrices_eq_nil.mp hx))]
  by_cases hfe : (parseHotelPrices h.price_1_adult).filter keep = []
  · rw [if_pos hfe]
  · rw [if_neg hfe]
    simp [selectPrice, hdf]

/-! ### Claim theorems -/

/-- Claim C8: for every start date and optional end date, the outbound
availability query's day count equals `min(dayspan, 30)` where `dayspan`
is `(end − start).days + 1` when an end date is given and 1 otherwise; in
particular a range longer than 30 days is capped to exactly 30. -/
theorem C8_theorem : ∀ (s : ℤ) (ed : Option ℤ),
    price_n_days s ed = min (dayspanSpec s ed) 30 := by
  intro s ed
  cases ed with
  | none => simp [price_n_days, dayspanSpec]
  | some e =>
    simp only [price_n_days, dayspanSpec]
    split_ifs with h <;> omega

/-- Claim C10: invoking derived-price processing with an end date equal to
the selected start date behaves exactly as a single-date selection (the
whole per-hostel computation agrees with the `end_date = None` run), and
the range rule is triggered precisely when an end date is present and
differs from the start date. -/
theorem C10_theorem : ∀ (d : ℤ) (h : HostelData),
    processOne (some d) (some d) h = processOne (some d) none h
    ∧ isDateRange (some d) (some d) = false
    ∧ isDateRange (some d) none = false
    ∧ ∀ e : ℤ, (isDateRange (some d) (some e) = true ↔ e ≠ d) := by
  intro d h
  have h1 : isDateRange (some d) (some d) = isDateRange (some d) none := by
    simp [isDateRange]
  have h2 : totalDaysInRange (some d) (some d) = totalDaysInRange (some d) none := by
    simp [totalDaysInRange]
  refine ⟨?_, by simp [isDateRange], by simp [isDateRange], by simp [isDateRange]⟩
  unfold processOne
  rw [h1, h2]

/-- Claim C3, counterexample: on a non-2xx transport response (status 500)
whose decoded body lacks the expected envelope, `scrape_prices` does not
fail with a `TransportError` (nor any error): it succeeds with the empty
day list, so neither "fails with TransportError exactly when the response
is non-2xx" nor "fails with SchemaError when the envelope is missing"
holds of the code. -/
theorem C3_counterexample :
    scrapePricesOutcome 500 (Except.ok (JVal.jobj [])) = Except.ok (JVal.jarr [])
    ∧ isOkOutcome (scrapePricesOutcome 500 (Except.ok (JVal.jobj []))) = true := by
  exact ⟨rfl, rfl⟩

/-- Claim C3, amended: `scrape_prices` raises no named error classes at
all: the transport status code is never inspected (the outcome is
independent of it); a decode failure or any exception raised by the
envelope checks — including the `TypeError` from a membership test or
subscript on a non-container value such as `{"data": null}` — propagates,
re-raised unchanged; only when the membership tests complete and report a
missing `data`/`availabilityCalendar` member does the call succeed with
the empty day list; and nothing is retried. -/
theorem C3_theorem :
    (∀ (s₁ s₂ : ℕ) (d : Except String JVal),
      scrapePricesOutcome s₁ d = scrapePricesOutcome s₂ d)
    ∧ (∀ (s : ℕ) (m : String),
        scrapePricesOutcome s (Except.error m) = Except.error m)
    ∧ (∀ (s : ℕ) (pd : JVal), hasMember pd "data" = Except.ok false →
        scrapePricesOutcome s (Except.ok pd) = Except.ok (JVal.jarr []))
    ∧ (∀ (s : ℕ) (pd d : JVal), hasMember pd "data" = Except.ok true →
        getItem pd "data" = Except.ok d →
        hasMember d "availabilityCalendar" = Except.ok false →
        scrapePricesOutcome s (Except.ok pd) = Except.ok (JVal.jarr []))
    ∧ (∀ (s : ℕ) (pd : JVal) (m : String), hasMember pd "data" = Except.error m →
        scrapePricesOutcome s (Except.ok pd) = Except.error m)
    ∧ (∀ (s : ℕ) (pd d : JVal) (m : String), hasMember pd "data" = Except.ok true →
        getItem pd "data" = Except.ok d →
        hasMember d "availabilityCalendar" = Except.error m →
        scrapePricesOutcome s (Except.ok pd) = Except.error m) := by
  refine ⟨fun s₁ s₂ d => rfl, fun s m => rfl, ?_, ?_, ?_, ?_⟩
  · intro s pd h1
    simp only [scrapePricesOutcome, h1]
  · intro s pd d h1 h2 h3
    simp only [scrapePricesOutcome, h1, h2, h3]
  · intro s pd m h1
    simp only [scrapePricesOutcome, h1]
  · intro s pd d m h1 h2 h3
    simp only [scrapePricesOutcome, h1, h2, h3]

/-- Claim C3, witness: the amended behavior at concrete inputs — an
envelope without `data` succeeds with the empty list, `{"data": null}`
propagates the raised `TypeError`, and `{"data": {}}` (a `data` object
without the calendar) succeeds with the empty list. -/
theorem C3_witness :
    scrapePricesOutcome 404 (Except.ok (JVal.jobj [("message", JVal.jstr "err")]))
      = Except.ok (JVal.jarr [])
    ∧ scrapePricesOutcome 200 (Except.ok (JVal.jobj [("data", JVal.jnull)]))
      = Except.error "TypeError: argument of type NoneType is not iterable"
    ∧ scrapePricesOutcome 200 (Except.ok (JVal.jobj [("data", JVal.jobj [])]))
      = Except.ok (JVal.jarr []) := by
  refine ⟨?_, ?_, ?_⟩
  · exact C3_theorem.2.2.1 404 (JVal.jobj [("message", JVal.jstr "err")])
      (by simp [hasMember, lookupField])
  · exact C3_theorem.2.2.2.2.2 200 (JVal.jobj [("data", JVal.jnull)]) JVal.jnull _
      (by simp [hasMember, lookupField]) (by simp [getItem, lookupField]) rfl
  · exact C3_theorem.2.2.2.1 200 (JVal.jobj [("data", JVal.jobj [])]) (JVal.jobj [])
      (by simp [hasMember, lookupField]) (by simp [getItem, lookupField])
      (by simp [hasMember, lookupField])

/-- Claim C9: normalization (numeric extraction followed by the
availability filter) only produces entries with price strictly above 0.01;
records with unparsable or non-positive extracted prices are dropped, not
kept with a sentinel; and normalization is idempotent. -/
theorem C9_theorem : ∀ l : List Entry,
    (∀ e ∈ normalizeDays l, ∃ p, e.price = some p ∧ (0.01 : ℚ) < p)
    ∧ normalizeDays (normalizeDays l) = normalizeDays l
    ∧ (∀ e : Entry,
        (extractPrice e.avgPriceFormatted = none ∨
         ∃ p, extractPrice e.avgPriceFormatted = some p ∧ p ≤ 0) →
        parseRow e ∉ normalizeDays l) := by
  intro l
  refine ⟨?_, ?_, ?_⟩
  · intro e he
    have hk : keep e = true := (List.mem_filter.mp he).2
    cases hp : e.price with
    | none => simp [keep, hp] at hk
    | some p =>
      refine ⟨p, rfl, ?_⟩
      simpa [keep, hp] using hk
  · induction l with
    | nil => rfl
    | cons x t ih =>
      simp only [normalizeDays, parseHotelPrices, List.map_cons, List.filter_cons] at *
      by_cases hk : keep (parseRow x)
      · simp only [hk, if_true]
        simp only [List.map_cons, parseRow_parseRow, List.filter_cons, hk, if_true]
        rw [ih]
      · simp only [hk, Bool.false_eq_true, if_false]
        exact ih
  · intro e hbad hmem
    have hk : keep (parseRow e) = true := (List.mem_filter.mp hmem).2
    rcases hbad with hn | ⟨p, hp, hle⟩
    · simp [keep, parseRow, hn] at hk
    · rw [keep, parseRow] at hk
      simp only [hp] at hk
      have : (0.01 : ℚ) < p := by simpa using hk
      linarith

/-- Claim C9, witness: a parsable positive entry survives with its price,
and an unparsable entry is dropped. -/
theorem C9_witness :
    (∃ p, (parseRow entry125).price = some p ∧ (0.01 : ℚ) < p)
    ∧ parseRow entryNA ∉ normalizeDays [entryNA] := by
  constructor
  · refine (C9_theorem [entry125]).1 (parseRow entry125) ?_
    have hscan : scanNumber ['1', '2', '.', '5'] = some (['1', '2'], ['5']) := by decide
    have hex : extractPrice "12.5" = some (12.5 : ℚ) := by
      simp [extractPrice, hscan, digitsToNat]
      norm_num
    have hkeep : keep (parseRow ⟨"12.5", 3, none⟩) = true := by
      simp [keep, parseRow, hex]
      norm_num
    simp [normalizeDays, parseHotelPrices, List.filter_cons, entry125, hkeep]
  · exact (C9_theorem [entryNA]).2.2 entryNA (Or.inl (by decide))

/-- Claim C7: the batch orchestrator returns one result per input property
in input order; a property's result depends only on the network behavior
for that property (so another property's failure can never remove or alter
it); and a page-fetch exception becomes an error-shaped record in place. -/
theorem C7_theorem : ∀ (env : FetchEnv) (hs : List HostelInput),
    (scrape_hotels env hs).length = hs.length
    ∧ (∀ i : ℕ, (scrape_hotels env hs)[i]? = (hs[i]?).map (scrape_hostel env))
    ∧ (∀ (env' : FetchEnv) (h : HostelInput), env.page h = env'.page h →
        (∀ a, env.prices h a = env'.prices h a) →
        scrape_hostel env h = scrape_hostel env' h)
    ∧ (∀ (h : HostelInput) (msg : String), effectiveUrl h ≠ "" →
        env.page h = PageOutcome.raises msg →
        scrape_hostel env h = ScrapeResult.err (h.name.getD "Unknown Hotel")
          (h.tipo.getD "Unknown Type") (effectiveUrl h) msg) := by
  intro env hs
  refine ⟨by simp [scrape_hotels], fun i => by simp [scrape_hotels], ?_, ?_⟩
  · intro env' h hp hpr
    cases hpg : env'.page h with
    | raises m => simp [scrape_hostel, hp, hpg]
    | resp code body => simp [scrape_hostel, hp, hpg, hpr 2, hpr 1]
  · intro h msg hu hpage
    simp [scrape_hostel, hpage, hu]

/-- Claim C7, witness: at a concrete hostel, a raising page fetch yields
the in-place error record, and an environment differing only elsewhere
yields the identical result. -/
theorem C7_witness :
    scrape_hostel envRaises inputA = ScrapeResult.err "A" "Privado" "u" "boom"
    ∧ scrape_hostel envRaises inputA = scrape_hostel envRaises' inputA := by
  constructor
  · exact (C7_theorem envRaises []).2.2.2 inputA "boom" (by decide) rfl
  · exact (C7_theorem envRaises []).2.2.1 envRaises' inputA (by decide)
      (fun a => by simp [envRaises, envRaises', inputA])

/-- Claim C4: the reported room prices by category — `Privado`: private
price is the (rounded) representative price and the shared price is 80% of
it, flagged as calculated; `Compartido` and `Hibrido`: the shared price is
the representative price and the private price is 120% of it, flagged as
calculated. -/
theorem C4_theorem : ∀ (P : ℚ) (r0 : Rec),
    (getKey (applyRules2A "Privado" P r0) "Precio Hab Baño Privado 2 Adultos"
      = some (Val.q (round2 P))
     ∧ getKey (applyRules2A "Privado" P r0) "Precio Hab Baño Compartido 2 Adultos"
      = some (Val.q (round2 (P * 0.8)))
     ∧ getKey (applyRules2A "Privado" P r0) "Precio Hab Baño Compartido 2 Adultos (Calculado)"
      = some (Val.b true))
    ∧ (getKey (applyRules2A "Compartido" P r0) "Precio Hab Baño Compartido 2 Adultos"
      = some (Val.q (round2 P))
     ∧ getKey (applyRules2A "Compartido" P r0) "Precio Hab Baño Privado 2 Adultos"
      = some (Val.q (round2 (P * 1.2)))
     ∧ getKey (applyRules2A "Compartido" P r0) "Precio Hab Baño Privado 2 Adultos (Calculado)"
      = some (Val.b true))
    ∧ (getKey (applyRules2A "Hibrido" P r0) "Precio Hab Baño Compartido 2 Adultos"
      = some (Val.q (round2 P))
     ∧ getKey (applyRules2A "Hibrido" P r0) "Precio Hab Baño Privado 2 Adultos"
      = some (Val.q (round2 (P * 1.2)))
     ∧ getKey (applyRules2A "Hibrido" P r0) "Precio Hab Baño Privado 2 Adultos (Calculado)"
      = some (Val.b true)) := by
  intro P r0
  refine ⟨⟨?_, ?_, ?_⟩, ⟨?_, ?_, ?_⟩, ⟨?_, ?_, ?_⟩⟩ <;>
    simp [applyRules2A, getKey_setKey_self, getKey_setKey_of_ne]

/-- Claim C5: for every category and representative price, both 2-adult
room prices receive `finalPrice = (roomPrice − 5.5×2) − (roomPrice −
5.5×2) × 0.08` rounded at reporting; the 1-adult case produces only the
shared-room final price with tax 5.5; and no emitted record ever carries a
private 1-adult price key. -/
theorem C5_theorem :
    (∀ (P : ℚ) (r0 : Rec),
      getKey (applyRules2A "Privado" P r0) "Precio Sin Tasa Privado 2 Adultos"
        = some (Val.q (round2 ((P - 5.5 * 2) - (P - 5.5 * 2) * 0.08)))
      ∧ getKey (applyRules2A "Privado" P r0) "Precio Sin Tasa Compartido 2 Adultos"
        = some (Val.q (round2 ((P * 0.8 - 5.5 * 2) - (P * 0.8 - 5.5 * 2) * 0.08)))
      ∧ getKey (applyRules2A "Compartido" P r0) "Precio Sin Tasa Compartido 2 Adultos"
        = some (Val.q (round2 ((P - 5.5 * 2) - (P - 5.5 * 2) * 0.08)))
      ∧ getKey (applyRules2A "Compartido" P r0) "Precio Sin Tasa Privado 2 Adultos"
        = some (Val.q (round2 ((P * 1.2 - 5.5 * 2) - (P * 1.2 - 5.5 * 2) * 0.08)))
      ∧ getKey (applyRules2A "Hibrido" P r0) "Precio Sin Tasa Compartido 2 Adultos"
        = some (Val.q (round2 ((P - 5.5 * 2) - (P - 5.5 * 2) * 0.08)))
      ∧ getKey (applyRules2A "Hibrido" P r0) "Precio Sin Tasa Privado 2 Adultos"
        = some (Val.q (round2 ((P * 1.2 - 5.5 * 2) - (P * 1.2 - 5.5 * 2) * 0.08))))
    ∧ (∀ (P : ℚ) (r0 : Rec),
      getKey (applyRules1A "Privado" P r0) "Precio Sin Tasa Compartido 1 Adulto"
        = some (Val.q (round2 ((P * 0.8 - 5.5) - (P * 0.8 - 5.5) * 0.08)))
      ∧ getKey (applyRules1A "Privado" P r0) "Tasa Turística 1 Adulto"
        = some (Val.q 5.5)
      ∧ getKey (applyRules1A "Compartido" P r0) "Precio Sin Tasa Compartido 1 Adulto"
        = some (Val.q (round2 ((P - 5.5) - (P - 5.5) * 0.08)))
      ∧ getKey (applyRules1A "Hibrido" P r0) "Precio Sin Tasa Compartido 1 Adulto"
        = some (Val.q (round2 ((P - 5.5) - (P - 5.5) * 0.08))))
    ∧ (∀ (sd ed : Option ℤ) (h : HostelData) (r : Rec),
        processOne sd ed h = Step.emit r →
        getKey r "Precio Hab Baño Privado 1 Adulto" = none
        ∧ getKey r "Precio Sin Tasa Privado 1 Adulto" = none) := by
  refine ⟨?_, ?_, ?_⟩
  · intro P r0
    refine ⟨?_, ?_, ?_, ?_, ?_, ?_⟩ <;>
      simp [applyRules2A, getKey_setKey_self, getKey_setKey_of_ne]
  · intro P r0
    refine ⟨?_, ?_, ?_, ?_⟩ <;>
      simp [applyRules1A, getKey_setKey_self, getKey_setKey_of_ne]
  · intro sd ed h r hemit
    unfold processOne at hemit
    by_cases herr : h.error.isSome
    · rw [if_pos herr] at hemit
      exact absurd hemit (by simp)
    · rw [if_neg herr] at hemit
      cases hb2 : twoAdultBlock sd (isDateRange sd ed) (totalDaysInRange sd ed) h (baseRec h) with
      | none =>
        simp only [hb2] at hemit
        exact absurd hemit (by simp)
      | some r1 =>
        simp only [hb2] at hemit
        cases hb1 : oneAdultBlock sd (isDateRange sd ed) (totalDaysInRange sd ed) h r1 with
        | none =>
          simp only [hb1] at hemit
          exact absurd hemit (by simp)
        | some r2 =>
          simp only [hb1] at hemit
          have hr : r = finalize r2 := (Step.emit.inj hemit).symm
          subst hr
          constructor
          · rw [getKey_finalize_of_ne _ (by decide)]
            rw [getKey_oneAdultBlock_of_ne _ _ _ _ _ _ _ hb1 (by decide) (by decide)
              (by decide) (by decide) (by decide) (by decide)]
            rw [getKey_twoAdultBlock_of_ne _ _ _ _ _ _ _ hb2 (by decide) (by decide)
              (by decide) (by decide) (by decide) (by decide) (by decide) (by decide)
              (by decide) (by decide) (by decide)]
            simp [baseRec, getKey]
          · rw [getKey_finalize_of_ne _ (by decide)]
            rw [getKey_oneAdultBlock_of_ne _ _ _ _ _ _ _ hb1 (by decide) (by decide)
              (by decide) (by decide) (by decide) (by decide)]
            rw [getKey_twoAdultBlock_of_ne _ _ _ _ _ _ _ hb2 (by decide) (by decide)
              (by decide) (by decide) (by decide) (by decide) (by decide) (by decide)
              (by decide) (by decide) (by decide)]
            simp [baseRec, getKey]

/-- Claim C5, witness: the per-formula finals at `P = 101`, and the absence
of private 1-adult keys on the concrete emitted record. -/
theorem C5_witness :
    getKey (applyRules2A "Privado" 101 []) "Precio Sin Tasa Privado 2 Adultos"
      = some (Val.q (round2 ((101 - 5.5 * 2) - (101 - 5.5 * 2) * 0.08)))
    ∧ getKey rec101 "Precio Hab Baño Privado 1 Adulto" = none
    ∧ getKey rec101 "Precio Sin Tasa Privado 1 Adulto" = none := by
  refine ⟨(C5_theorem.1 101 []).1, ?_, ?_⟩
  · exact (C5_theorem.2.2 (some 0) none hostel101 rec101 processOne_hostel101).1
  · exact (C5_theorem.2.2 (some 0) none hostel101 rec101 processOne_hostel101).2

/-- Evaluation of the 2-adult block for `hostelU` on the range `[0,1]`:
the unrecognized category adds no pricing keys, leaving exactly the two
availability fields. -/
theorem twoAdultBlock_hostelU :
    twoAdultBlock (some 0) (isDateRange (some 0) (some 1))
      (totalDaysInRange (some 0) (some 1)) hostelU []
      = some [("Días con Disponibilidad", Val.n 1), ("Total Días en Rango", Val.i 2)] := by
  simp [twoAdultBlock, hostelU, parseHotelPrices, parseRow, extractPrice_101, keep_101,
    isDateRange, totalDaysInRange, selectPrice, listMin, colPrice, mean, applyRules2A,
    setKey]

/-- Claim C6: for a non-empty filtered frame, the single-date representative
price is the minimum of the rows matching the exact date (it is a smallest
element of that subset), the range representative price is the arithmetic
mean (sum over count) of all remaining rows, and under a range the block
reports `daysAvailable` as the count of remaining rows and
`totalDaysInRange` as `(end − start).days + 1`. -/
theorem C6_theorem :
    (∀ (d : ℤ) (filtered : List Entry),
      filtered.filter (fun x => x.checkin == d) ≠ [] →
      selectPrice (some d) false filtered
        = some (listMin (colPrice (filtered.filter (fun x => x.checkin == d))))
      ∧ listMin (colPrice (filtered.filter (fun x => x.checkin == d)))
          ∈ colPrice (filtered.filter (fun x => x.checkin == d))
      ∧ ∀ q ∈ colPrice (filtered.filter (fun x => x.checkin == d)),
          listMin (colPrice (filtered.filter (fun x => x.checkin == d))) ≤ q)
    ∧ (∀ (sd : Option ℤ) (filtered : List Entry),
        selectPrice sd true filtered
          = some ((colPrice filtered).sum / ((colPrice filtered).length : ℚ)))
    ∧ (∀ (d e : ℤ) (h : HostelData) (r0 r : Rec),
        twoAdultBlock (some d) (isDateRange (some d) (some e))
          (totalDaysInRange (some d) (some e)) h r0 = some r →
        e ≠ d →
        h.price_2_adults ≠ [] →
        getKey r "Días con Disponibilidad"
          = some (Val.n ((parseHotelPrices h.price_2_adults).filter keep).length)
        ∧ getKey r "Total Días en Rango" = some (Val.i (e - d + 1))) := by
  refine ⟨?_, ?_, ?_⟩
  · intro d filtered hne
    refine ⟨by simp [selectPrice, hne], listMin_mem (by simp [colPrice, hne]), listMin_le _⟩
  · intro sd filtered
    cases sd <;> simp [selectPrice, mean]
  · intro d e h r0 r hb hne hp2
    have hidr : isDateRange (some d) (some e) = true := by simp [isDateRange, hne]
    have ht : totalDaysInRange (some d) (some e) = e - d + 1 := by simp [totalDaysInRange]
    rw [hidr, ht] at hb
    simp only [twoAdultBlock] at hb
    rw [if_neg hp2, if_neg (fun hx => hp2 (parseHotelPrices_eq_nil.mp hx))] at hb
    by_cases hf : List.filter keep (parseHotelPrices h.price_2_adults) = []
    · rw [if_pos hf] at hb
      exact absurd hb (by simp)
    · rw [if_neg hf] at hb
      rw [if_neg (by simp)] at hb
      simp only [selectPrice] at hb
      have hr : r = applyRules2A h.tipo (mean (colPrice
          (List.filter keep (parseHotelPrices h.price_2_adults))))
          (setKey (setKey r0 "Días con Disponibilidad"
            (Val.n (List.filter keep (parseHotelPrices h.price_2_adults)).length))
            "Total Días en Rango" (Val.i (e - d + 1))) := (Option.some.inj hb).symm
      subst hr
      constructor
      · rw [getKey_applyRules2A_of_ne _ _ _ _ (by decide) (by decide) (by decide)
          (by decide) (by decide) (by decide) (by decide) (by decide) (by decide)]
        rw [getKey_setKey_of_ne _ _ (by decide)]
        exact getKey_setKey_self _ _ _
      · rw [getKey_applyRules2A_of_ne _ _ _ _ (by decide) (by decide) (by decide)
          (by decide) (by decide) (by decide) (by decide) (by decide) (by decide)]
        exact getKey_setKey_self _ _ _

/-- Claim C6, witness: the selection rules and range fields at concrete
inputs. -/
theorem C6_witness :
    selectPrice (some 0) false frameRows
      = some (listMin (colPrice (frameRows.filter (fun x => x.checkin == (0 : ℤ)))))
    ∧ selectPrice (some 0) true frameRows
      = some ((colPrice frameRows).sum / ((colPrice frameRows).length : ℚ))
    ∧ getKey [("Días con Disponibilidad", Val.n 1), ("Total Días en Rango", Val.i 2)]
        "Días con Disponibilidad"
      = some (Val.n ((parseHotelPrices hostelU.price_2_adults).filter keep).length)
    ∧ getKey [("Días con Disponibilidad", Val.n 1), ("Total Días en Rango", Val.i 2)]
        "Total Días en Rango" = some (Val.i (1 - 0 + 1)) := by
  refine ⟨(C6_theorem.1 0 frameRows (by decide)).1, C6_theorem.2.1 (some 0) frameRows, ?_, ?_⟩
  · exact (C6_theorem.2.2 0 1 hostelU [] _ twoAdultBlock_hostelU (by decide)
      (by simp [hostelU])).1
  · exact (C6_theorem.2.2 0 1 hostelU [] _ twoAdultBlock_hostelU (by decide)
      (by simp [hostelU])).2

/-- Claim C1, counterexample: for category `Privado` with scraped price
101, the emitted 2-adult shared final price is 64.22, not the 64.18 the
claim states (the claim's own formula `round((80.80 − 11) × 0.92, 2)`
evaluates to 64.22). -/
theorem C1_counterexample :
    stepGet (processOne (some 0) none hostel101) "Precio Sin Tasa Compartido 2 Adultos"
      = some (Val.q 64.22)
    ∧ stepGet (processOne (some 0) none hostel101) "Precio Sin Tasa Compartido 2 Adultos"
      ≠ some (Val.q 64.18) := by
  rw [processOne_hostel101]
  constructor
  · simp [stepGet, rec101, getKey]
  · simp [stepGet, rec101, getKey]
    norm_num

/-- Claim C1, amended: for category `Privado` with scraped price 101, the
derived values are shared room price 80.80, 2-adult private final price
82.80, and 2-adult shared final price 64.22 (`round((80.80 − 11) × 0.92,
2)`), as produced by the `Privado` branch of `process_hostel_data`. -/
theorem C1_theorem :
    stepGet (processOne (some 0) none hostel101) "Precio Hab Baño Compartido 2 Adultos"
      = some (Val.q 80.8)
    ∧ stepGet (processOne (some 0) none hostel101) "Precio Sin Tasa Privado 2 Adultos"
      = some (Val.q 82.8)
    ∧ stepGet (processOne (some 0) none hostel101) "Precio Sin Tasa Compartido 2 Adultos"
      = some (Val.q 64.22) := by
  rw [processOne_hostel101]
  refine ⟨?_, ?_, ?_⟩ <;> simp [stepGet, rec101, getKey]

/-- Claim C2, counterexample: a property whose 2-adult day list is
non-empty but filters to empty is dropped from the results entirely (the
loop `continue`s), even though its 1-adult list has a valid price — no
record lacking only the 2-adult keys is emitted. -/
theorem C2_counterexample :
    processOne (some 0) none hostelZero2A = Step.skipped
    ∧ (processHostelData (some 0) none [hostelZero2A]).1 = [] := by
  have hskip : processOne (some 0) none hostelZero2A = Step.skipped := by
    simp [processOne, twoAdultBlock, hostelZero2A, parseHotelPrices, parseRow,
      extractPrice_zero, keep_zero, isDateRange, totalDaysInRange, baseRec]
  exact ⟨hskip, by simp [processHostelData, hskip]⟩

/-- Claim C2, amended: when an adult count's raw day list is non-empty but
the availability filter (or, on a single-date query, the exact-date
filter) leaves nothing, `process_hostel_data` skips the whole property: no
result record at all is emitted for it (the other adult count's fields,
even if computable, are discarded with it). -/
theorem C2_theorem : ∀ (sd ed : Option ℤ) (h : HostelData),
    h.error = none →
    ((h.price_2_adults ≠ [] ∧ (parseHotelPrices h.price_2_adults).filter keep = [])
     ∨ (∃ d, sd = some d ∧ isDateRange sd ed = false ∧ h.price_2_adults ≠ [] ∧
         ((parseHotelPrices h.price_2_adults).filter keep).filter
           (fun x => x.checkin == d) = [])
     ∨ (h.price_1_adult ≠ [] ∧ (parseHotelPrices h.price_1_adult).filter keep = [])
     ∨ (∃ d, sd = some d ∧ isDateRange sd ed = false ∧ h.price_1_adult ≠ [] ∧
         ((parseHotelPrices h.price_1_adult).filter keep).filter
           (fun x => x.checkin == d) = [])) →
    processOne sd ed h = Step.skipped := by
  intro sd ed h herr hcase
  unfold processOne
  rw [if_neg (by simp [herr])]
  rcases hcase with ⟨hne, hf⟩ | ⟨d, hsd, hidr, hne, hdf⟩ | ⟨hne, hf⟩ | ⟨d, hsd, hidr, hne, hdf⟩
  · rw [twoAdultBlock_none_of_filter _ _ _ _ _ hne hf]
  · subst hsd
    rw [hidr, twoAdultBlock_none_of_date d _ _ _ hne hdf]
  · cases hb2 : twoAdultBlock sd (isDateRange sd ed) (totalDaysInRange sd ed) h (baseRec h) with
    | none => rfl
    | some r1 =>
      simp only [oneAdultBlock_none_of_filter sd (isDateRange sd ed)
        (totalDaysInRange sd ed) h r1 hne hf]
  · subst hsd
    rw [hidr]
    cases hb2 : twoAdultBlock (some d) false (totalDaysInRange (some d) ed) h (baseRec h) with
    | none => rfl
    | some r1 =>
      simp only [oneAdultBlock_none_of_date d (totalDaysInRange (some d) ed) h r1 hne hdf]

/-- Claim C2, witness: the amended skip rule at concrete inputs, for both
the availability-filter case and the exact-date-filter case. -/
theorem C2_witness :
    processOne (some 5) (some 9) hostelZero2A = Step.skipped
    ∧ processOne (some 3) none hostel101 = Step.skipped := by
  constructor
  · exact C2_theorem (some 5) (some 9) hostelZero2A rfl
      (Or.inl ⟨by simp [hostelZero2A],
        by simp [hostelZero2A, parseHotelPrices, parseRow, extractPrice_zero, keep_zero]⟩)
  · exact C2_theorem (some 3) none hostel101 rfl
      (Or.inr (Or.inl ⟨3, rfl, by simp [isDateRange], by simp [hostel101],
        by simp [hostel101, parseHotelPrices, parseRow, extractPrice_101, keep_101]⟩))

end Scraper
